import Mathlib

/-!
Shallow embedding of `src/cli/src/treeline/commands/demo.py` (the demo
command of the treeline CLI).  The module toggles a persisted demo-mode
flag, manages the demo database file (and its write-ahead-log sibling),
and seeds demo data through pluggable scenarios.

Modelling conventions:
* The externally visible machine state (`St`) is the demo-mode flag plus
  the existence of the demo database file and of its WAL file — the only
  durable state this module reads or writes.
* Every observable effect (file unlink, flag write, container reset,
  service call, console print) is recorded as an `Event` in a trace, so
  ordering claims become statements about the produced trace.
* Results of the external services consumed by `DefaultScenario.setup`
  are inputs, collected in an environment record `Env` mirroring the
  collaborator contracts (integration, sync, account, db services and the
  demo provider).
* Python truthiness is modelled explicitly (`None` and `""` and `[]` are
  falsy); Python dict insertion is modelled by `dictInsert` (update in
  place if the key is present, else append).
* `typer.Exit(1)` is an exit code of 1; a normal return is exit code 0.
-/

/-- State durably touched by the demo command: the demo-mode flag
(`is_demo_mode` / `set_demo_mode`), and existence of `demo.duckdb` and
of its `.wal` sibling under the treeline directory. -/
structure St where
  demoMode : Bool
  dbExists : Bool
  walExists : Bool
deriving DecidableEq, Repr

/-- Observable effects emitted by the demo command, in program order. -/
inductive Event where
  | unlinkDb : Event
  | unlinkWal : Event
  | setDemoModeEv : Bool → Event
  | resetContainer : Event
  | ensureInitializedEv : Event
  | getIntegrations : Event
  | createIntegration : String → Event
  | syncAllIntegrations : Event
  | getAccounts : Event
  | genBalanceSqlEv : List (String × String) → Event
  | execWriteQuery : String → Event
  | printSuccess : String → Event
  | printWarning : String → Event
  | printMuted : String → Event
  | printError : String → Event
deriving DecidableEq, Repr

/-- Result objects returned by the async services (`.success`, `.data`,
`.error`). `data` is `none` when the Python attribute is `None`. -/
structure PyResult (α : Type) where
  success : Bool
  data : Option α
  error : String
deriving Repr

/-- An integration record as consumed by `setup`:
`integration.get("integrationName")`. -/
structure Integration where
  integrationName : Option String
deriving DecidableEq, Repr

/-- An account as consumed by `setup`: internal `id` (already as the
string `str(account.id)`) and the `external_ids` dict. -/
structure Account where
  id : String
  external_ids : List (String × String)
deriving DecidableEq, Repr

/-- Collaborator environment: the results and pure generators the
external services give back during one `DefaultScenario.setup` run. -/
structure Env where
  integrationsResult : PyResult (List Integration)
  createResult : PyResult Unit
  syncResult : PyResult Unit
  accountsResult : PyResult (List Account)
  genBalanceHistorySql : List (String × String) → String
  genBudgetSql : String
  execWrite : String → PyResult Unit

/-- Python `str.lower()` on the character list (ASCII lowering). -/
def strLower (s : String) : String :=
  ⟨s.data.map Char.toLower⟩

/-- Python dict lookup `d.get(k)` on an association list. -/
def dictGet (m : List (String × String)) (k : String) : Option String :=
  (m.find? (fun p => p.1 == k)).map (fun p => p.2)

/-- Python dict assignment `d[k] = v`: update in place when the key is
present, otherwise append at the end. -/
def dictInsert (m : List (String × String)) (k v : String) : List (String × String) :=
  if m.any (fun p => p.1 == k) then
    m.map (fun p => if p.1 == k then (k, v) else p)
  else
    m ++ [(k, v)]

/-- Keys of a dict, in insertion order. -/
def dictKeys (m : List (String × String)) : List String :=
  m.map Prod.fst

/-- Python truthiness of `accounts_result.data` (an optional list):
`None` and `[]` are falsy. -/
def pyTruthyList {α : Type} : Option (List α) → Bool
  | none => false
  | some l => !l.isEmpty

/-- The `has_demo` scan of `DefaultScenario.setup`: the integrations
result succeeded and some entry has `integrationName == "demo"`
(`data or []` guards a `None` data field). -/
def hasDemoIntegration (r : PyResult (List Integration)) : Bool :=
  r.success && (r.data.getD []).any (fun i => i.integrationName == some "demo")

/-- One iteration of the account loop in `DefaultScenario.setup`:
`demo_id = account.external_ids.get("demo"); if demo_id:
account_id_map[demo_id] = str(account.id)` (the empty string is falsy). -/
def accountIdStep (m : List (String × String)) (account : Account) : List (String × String) :=
  match dictGet account.external_ids "demo" with
  | some demoId => if demoId ≠ "" then dictInsert m demoId account.id else m
  | none => m

/-- The Account-ID Map built by `DefaultScenario.setup` from the fetched
accounts. -/
def accountIdMap (accounts : List Account) : List (String × String) :=
  accounts.foldl accountIdStep []

/-- `DefaultScenario.setup` (demo.py lines 80-141) as the trace of
effects it performs, given the collaborators' results. -/
def defaultSetup (env : Env) : List Event :=
  let evCreate :=
    if hasDemoIntegration env.integrationsResult then []
    else [Event.createIntegration "demo"]
  let evSyncReport :=
    if env.syncResult.success then
      [Event.printSuccess "Demo data synced successfully!"]
    else
      [Event.printWarning ("Note: " ++ env.syncResult.error)]
  let accounts := env.accountsResult.data.getD []
  let evBalance :=
    if env.accountsResult.success && pyTruthyList env.accountsResult.data then
      let m := accountIdMap accounts
      if !m.isEmpty then
        let sql := env.genBalanceHistorySql m
        let res := env.execWrite sql
        [Event.genBalanceSqlEv m, Event.execWriteQuery sql] ++
          (if res.success then
            [Event.printSuccess ("Created balance history for " ++ toString m.length ++ " accounts")]
          else
            [Event.printWarning ("Note: " ++ res.error)])
      else []
    else []
  let budgetRes := env.execWrite env.genBudgetSql
  let evBudget :=
    [Event.execWriteQuery env.genBudgetSql] ++
      (if budgetRes.success then [Event.printSuccess "Demo budget configured"]
       else [Event.printWarning ("Note: " ++ budgetRes.error)])
  [Event.getIntegrations] ++ evCreate ++
    [Event.printMuted "Syncing demo data...", Event.syncAllIntegrations] ++ evSyncReport ++
    [Event.getAccounts] ++ evBalance ++ evBudget

/-- The closed set of registered scenarios. -/
inductive Scenario where
  | defaultScn : Scenario
  | emptyScn : Scenario
deriving DecidableEq, Repr

/-- `scenario.name` properties. -/
def scenarioName : Scenario → String
  | Scenario.defaultScn => "default"
  | Scenario.emptyScn => "empty"

/-- `scenario.description` properties. -/
def scenarioDescription : Scenario → String
  | Scenario.defaultScn => "Full sample data (accounts, transactions, budget)"
  | Scenario.emptyScn => "Empty database for testing new user experience"

/-- Polymorphic `scenario.setup`: `DefaultScenario` runs the seeding
pipeline, `EmptyScenario.setup` is a no-op (empty trace). -/
def scenarioSetup : Scenario → Env → List Event
  | Scenario.defaultScn, env => defaultSetup env
  | Scenario.emptyScn, _ => []

/-- The `SCENARIOS` registry: dict comprehension keyed by each
scenario's own name, built from the fixed list. -/
def SCENARIOS : List (String × Scenario) :=
  [Scenario.defaultScn, Scenario.emptyScn].map (fun scn => (scenarioName scn, scn))

/-- `SCENARIOS.get(key)`. -/
def scenariosGet (key : String) : Option Scenario :=
  (SCENARIOS.find? (fun p => p.1 == key)).map (fun p => p.2)

/-- The `ScenarioChoice` CLI enum. -/
inductive ScenarioChoice where
  | DEFAULT : ScenarioChoice
  | EMPTY : ScenarioChoice
deriving DecidableEq, Repr

/-- `ScenarioChoice.value`. -/
def ScenarioChoice.value : ScenarioChoice → String
  | ScenarioChoice.DEFAULT => "default"
  | ScenarioChoice.EMPTY => "empty"

/-- `_delete_demo_database` (demo.py lines 241-249): unlink the db file
if it exists, and only then, if the WAL file exists, unlink it too. -/
def delete_demo_database (s : St) : St × List Event :=
  if s.dbExists then
    if s.walExists then
      ({ s with dbExists := false, walExists := false }, [Event.unlinkDb, Event.unlinkWal])
    else
      ({ s with dbExists := false }, [Event.unlinkDb])
  else
    (s, [])

/-- Final state plus emitted trace of one command run. -/
structure Outcome where
  state : St
  trace : List Event
deriving Repr

/-- Whether an external hook call returns normally or raises. -/
inductive HookRun where
  | ok : HookRun
  | raises : HookRun
deriving DecidableEq, Repr

/-- `_enable_demo` (demo.py lines 252-278) with explicit exception
propagation for the two external calls it performs after mutating state
(`ensure_initialized` and `scenario.setup`): delete the demo database,
set the flag ON, reset the container, print, initialize, run the
scenario setup.  There is no `try`/`except` in the source, so a raise in
either hook aborts the remainder with the mutations already applied
(`Except.error` carries the state and trace reached at that point). -/
def enable_demoF (scn : Scenario) (env : Env) (initRun setupRun : HookRun) (s : St) :
    Except Outcome Outcome :=
  let d := delete_demo_database s
  let s2 : St := { d.1 with demoMode := true }
  let evPre := d.2 ++
    [Event.setDemoModeEv true, Event.resetContainer,
     Event.printSuccess "Demo mode enabled",
     Event.printMuted ("Scenario: " ++ scenarioName scn ++ " - " ++ scenarioDescription scn)]
  match initRun with
  | HookRun.raises => Except.error { state := s2, trace := evPre }
  | HookRun.ok =>
    let evInit := evPre ++ [Event.ensureInitializedEv]
    match setupRun with
    | HookRun.raises => Except.error { state := s2, trace := evInit }
    | HookRun.ok =>
      Except.ok { state := s2
                , trace := evInit ++ scenarioSetup scn env ++
                    [Event.printMuted "Run tl demo off to return to real data"] }

/-- `_enable_demo` on the normal path (no hook raises). -/
def enable_demo (scn : Scenario) (env : Env) (s : St) : Outcome :=
  match enable_demoF scn env HookRun.ok HookRun.ok s with
  | Except.ok o => o
  | Except.error o => o

/-- `_disable_demo` (demo.py lines 281-290): no-op with an
"already disabled" notice when the flag is OFF, else flip it OFF. -/
def disable_demo (s : St) : St × List Event :=
  if !s.demoMode then
    (s, [Event.printMuted "Demo mode is already disabled"])
  else
    ({ s with demoMode := false },
     [Event.setDemoModeEv false,
      Event.printSuccess "Demo mode disabled",
      Event.printMuted "Now using treeline.duckdb with real data",
      Event.printMuted "Run tl status to see your data"])

/-- `_show_status` (demo.py lines 229-238): report the flag, no
mutation. -/
def show_status (s : St) : List Event :=
  if s.demoMode then
    [Event.printWarning "Demo mode is ON",
     Event.printMuted "Using demo.duckdb with sample data",
     Event.printMuted "Run tl demo off to switch to real data"]
  else
    [Event.printSuccess "Demo mode is OFF",
     Event.printMuted "Using treeline.duckdb with real data",
     Event.printMuted "Run tl demo on to try demo mode"]

/-- Result of a whole `demo` command invocation: final state, trace and
process exit code (`typer.Exit(1)` is 1, normal return is 0). -/
structure CmdOut where
  state : St
  trace : List Event
  exitCode : Nat
deriving Repr

/-- The `on` branch of `demo_command` (demo.py lines 214-220): registry
lookup first, `Unknown scenario` error with exit 1 on a miss, otherwise
`_enable_demo`. -/
def on_action (scenarioValue : String) (env : Env) (s : St) : CmdOut :=
  match scenariosGet scenarioValue with
  | none =>
    { state := s
    , trace := [Event.printError ("Unknown scenario: " ++ scenarioValue)]
    , exitCode := 1 }
  | some scn =>
    { state := (enable_demo scn env s).state
    , trace := (enable_demo scn env s).trace
    , exitCode := 0 }

/-- `demo_command` (demo.py lines 179-226): default the action to
`status`, lower-case it, dispatch to status/on/off, otherwise report an
unknown action and exit 1. -/
def demo_command (action : Option String) (scenario : ScenarioChoice) (env : Env) (s : St) :
    CmdOut :=
  let action2 := action.getD "status"
  let action_lower := strLower action2
  if action_lower = "status" then
    { state := s, trace := show_status s, exitCode := 0 }
  else if action_lower = "on" then
    on_action scenario.value env s
  else if action_lower = "off" then
    { state := (disable_demo s).1, trace := (disable_demo s).2, exitCode := 0 }
  else
    { state := s
    , trace := [Event.printError ("Unknown action: " ++ action2),
                Event.printMuted "Use on, off, or status"]
    , exitCode := 1 }

/-! ## Concrete inputs used by witnesses -/

/-- A successful unit result. -/
def okUnit : PyResult Unit :=
  { success := true, data := some (), error := "" }

/-- Concrete collaborator environment: no demo integration yet, a
failing sync, one account carrying a demo external id. -/
def envW : Env :=
  { integrationsResult := { success := true, data := some [], error := "" }
  , createResult := okUnit
  , syncResult := { success := false, data := none, error := "sync unavailable" }
  , accountsResult :=
      { success := true
      , data := some [{ id := "acc1", external_ids := [("demo", "d1")] }]
      , error := "" }
  , genBalanceHistorySql := fun m => "INSERT balance rows for " ++ toString m.length
  , genBudgetSql := "INSERT budget rows"
  , execWrite := fun _ => okUnit }

/-- Demo mode already ON, both files present. -/
def stDbWal : St :=
  { demoMode := true, dbExists := true, walExists := true }

/-- No demo database file, but a stray WAL file. -/
def stWalOnly : St :=
  { demoMode := false, dbExists := false, walExists := true }

/-! ## Helper lemmas -/

theorem delete_demo_database_clears_db (s : St) :
    (delete_demo_database s).1.dbExists = false := by
  unfold delete_demo_database
  rcases s with ⟨dm, db, wal⟩
  cases db <;> cases wal <;> simp

/-! ## Claims -/

/-- Claim C1: every execution of the `on` transition (`_enable_demo`)
runs the demo-database deletion unconditionally (for every initial
state, in particular when demo mode is already ON), and its trace is
exactly: the deletion events, then the flag flip to ON, then container
reset and reports, then `ensure_initialized`, then `scenario.setup`'s
events — so wipe precedes flag flip precedes re-initialization precedes
scenario setup in every trace. -/
theorem on_transition_step_order (s : St) (env : Env) (scn : Scenario) :
    (enable_demo scn env s).trace =
      (delete_demo_database s).2 ++
        [Event.setDemoModeEv true, Event.resetContainer,
         Event.printSuccess "Demo mode enabled",
         Event.printMuted ("Scenario: " ++ scenarioName scn ++ " - " ++ scenarioDescription scn),
         Event.ensureInitializedEv] ++
        scenarioSetup scn env ++
        [Event.printMuted "Run tl demo off to return to real data"] ∧
    (s.dbExists = true → Event.unlinkDb ∈ (enable_demo scn env s).trace) := by
  constructor
  · simp [enable_demo, enable_demoF]
  · intro h
    rcases s with ⟨dm, db, wal⟩
    cases wal <;>
      simp_all [enable_demo, enable_demoF, delete_demo_database]

/-- Witness for C1: a concrete `on` run from the state where demo mode
is already ON and both files exist still performs the database unlink. -/
theorem on_transition_order_witness :
    Event.unlinkDb ∈ (enable_demo Scenario.defaultScn envW stDbWal).trace :=
  (on_transition_step_order stDbWal envW Scenario.defaultScn).2 rfl

/-- Counterexample for C2: from the state with no demo database file
but a surviving WAL file, `_delete_demo_database` does not attempt the
WAL deletion — the WAL unlink is nested under the database-file
existence check, so the WAL file survives. -/
theorem delete_demo_cex :
    stWalOnly.walExists = true ∧
    Event.unlinkWal ∉ (delete_demo_database stWalOnly).2 ∧
    (delete_demo_database stWalOnly).1.walExists = true := by
  decide

/-- Claim C2 (amended): `_delete_demo_database` is idempotent — when no
demo database file exists it is a no-op, not an error — and it always
leaves the database file deleted; when the database file exists it
unlinks it and, if the WAL file also exists, unlinks that too; but when
the database file is absent the WAL deletion is not attempted at all,
even if a WAL file is present. -/
theorem delete_demo_amended (s : St) :
    (delete_demo_database s).1.dbExists = false ∧
    (s.dbExists = false → delete_demo_database s = (s, [])) ∧
    (s.dbExists = true →
      Event.unlinkDb ∈ (delete_demo_database s).2 ∧
      (s.walExists = true →
        Event.unlinkWal ∈ (delete_demo_database s).2 ∧
        (delete_demo_database s).1.walExists = false)) ∧
    (s.dbExists = false → Event.unlinkWal ∉ (delete_demo_database s).2) := by
  rcases s with ⟨dm, db, wal⟩
  cases dm <;> cases db <;> cases wal <;> decide

/-- Witness for C2 (amended): the no-op case at a concrete WAL-only
state and the deletion case at a concrete full state. -/
theorem delete_demo_amended_witness :
    delete_demo_database stWalOnly = (stWalOnly, []) ∧
    Event.unlinkDb ∈ (delete_demo_database stDbWal).2 :=
  ⟨(delete_demo_amended stWalOnly).2.1 rfl,
   ((delete_demo_amended stDbWal).2.2.1 rfl).1⟩

/-- Claim C6: `_disable_demo` leaves the flag OFF after one call and
after two consecutive calls; the second call is the "already disabled"
no-op (state untouched, only the notice printed); and `off` never
touches storage — the database and WAL existence bits are preserved and
no unlink event is ever emitted. -/
theorem off_idempotent_flag_only (s : St) :
    (disable_demo s).1.demoMode = false ∧
    (disable_demo (disable_demo s).1).1.demoMode = false ∧
    (disable_demo (disable_demo s).1).1 = (disable_demo s).1 ∧
    (disable_demo (disable_demo s).1).2 = [Event.printMuted "Demo mode is already disabled"] ∧
    (disable_demo s).1.dbExists = s.dbExists ∧
    (disable_demo s).1.walExists = s.walExists ∧
    Event.unlinkDb ∉ (disable_demo s).2 ∧
    Event.unlinkWal ∉ (disable_demo s).2 := by
  rcases s with ⟨dm, db, wal⟩
  cases dm <;> cases db <;> cases wal <;> decide

/-- Claim C10: activation is not atomic — if `ensure_initialized` or
`scenario.setup` raises, the error outcome of `_enable_demo` already
has the demo-mode flag ON and the demo database file deleted, and no
rollback of either mutation occurs. -/
theorem enable_demo_no_rollback (scn : Scenario) (env : Env)
    (initRun setupRun : HookRun) (s : St) (o : Outcome)
    (h : enable_demoF scn env initRun setupRun s = Except.error o) :
    o.state.demoMode = true ∧ o.state.dbExists = false := by
  have hdb := delete_demo_database_clears_db s
  cases initRun <;> cases setupRun <;> simp only [enable_demoF] at h
  case ok.ok => exact absurd h (by simp)
  all_goals
    injection h with h2
    subst h2
    exact ⟨rfl, hdb⟩

/-- The outcome reached when the initialization hook raises during a
concrete activation from `stDbWal`. -/
def outW : Outcome :=
  match enable_demoF Scenario.defaultScn envW HookRun.raises HookRun.ok stDbWal with
  | Except.error o => o
  | Except.ok o => o

/-- Witness for C10: in a concrete activation whose `ensure_initialized`
hook raises, the aborted outcome has the flag ON and the database
deleted. -/
theorem enable_demo_no_rollback_witness :
    outW.state.demoMode = true ∧ outW.state.dbExists = false :=
  enable_demo_no_rollback Scenario.defaultScn envW HookRun.raises HookRun.ok stDbWal outW rfl

/-- Claim C4: when the requested scenario value is not a key of the
registry, the `on` action reports the unknown scenario, exits with
status 1, and performs no side effect at all — the returned state is
the input state (no flag write, no deletion) and the trace holds only
the error report. -/
theorem unknown_scenario_no_side_effects (v : String) (env : Env) (s : St)
    (h : scenariosGet v = none) :
    on_action v env s =
      { state := s
      , trace := [Event.printError ("Unknown scenario: " ++ v)]
      , exitCode := 1 } := by
  simp [on_action, h]

/-- Witness for C4: the lookup of the unregistered name "bogus" fails
and the `on` action from a concrete state is side-effect free. -/
theorem unknown_scenario_witness :
    on_action "bogus" envW stDbWal =
      { state := stDbWal
      , trace := [Event.printError ("Unknown scenario: " ++ "bogus")]
      , exitCode := 1 } :=
  unknown_scenario_no_side_effects "bogus" envW stDbWal (by decide)

/-- Claim C8: every value of the CLI `ScenarioChoice` enum is a key of
the `SCENARIOS` registry, so the lookup always succeeds and the `on`
branch taken from the CLI always runs `_enable_demo` with exit code 0 —
the unknown-scenario error branch is unreachable from the CLI. -/
theorem scenario_choice_always_registered :
    ∀ c : ScenarioChoice, ∃ scn : Scenario,
      scenariosGet c.value = some scn ∧
      ∀ env s, on_action c.value env s =
        { state := (enable_demo scn env s).state
        , trace := (enable_demo scn env s).trace
        , exitCode := 0 } := by
  intro c
  cases c
  · exact ⟨Scenario.defaultScn, rfl, fun env s => rfl⟩
  · exact ⟨Scenario.emptyScn, rfl, fun env s => rfl⟩

/-- Claim C5: any action whose lower-cased form is none of "status",
"on", "off" yields the unknown-action report, exit status 1, and an
unchanged state; and the dispatch is on the lower-cased action, so
actions equal up to case reach the same branch: they yield the same
final state and exit code, and on the three recognized actions the very
same trace (only the unknown-action echo keeps the original casing). -/
theorem unknown_action_and_case_insensitive :
    (∀ a env scenario s,
      strLower a ≠ "status" → strLower a ≠ "on" → strLower a ≠ "off" →
      demo_command (some a) scenario env s =
        { state := s
        , trace := [Event.printError ("Unknown action: " ++ a),
                    Event.printMuted "Use on, off, or status"]
        , exitCode := 1 }) ∧
    (∀ a1 a2 env scenario s, strLower a1 = strLower a2 →
      (demo_command (some a1) scenario env s).state =
        (demo_command (some a2) scenario env s).state ∧
      (demo_command (some a1) scenario env s).exitCode =
        (demo_command (some a2) scenario env s).exitCode ∧
      (strLower a1 = "status" ∨ strLower a1 = "on" ∨ strLower a1 = "off" →
        (demo_command (some a1) scenario env s).trace =
          (demo_command (some a2) scenario env s).trace)) := by
  constructor
  · intro a env scenario s h1 h2 h3
    simp [demo_command, h1, h2, h3]
  · intro a1 a2 env scenario s h
    simp only [demo_command, Option.getD]
    rw [h]
    split_ifs with hc1 hc2 hc3
    · exact ⟨rfl, rfl, fun _ => rfl⟩
    · exact ⟨rfl, rfl, fun _ => rfl⟩
    · exact ⟨rfl, rfl, fun _ => rfl⟩
    · refine ⟨rfl, rfl, fun hk => ?_⟩
      rcases hk with hk | hk | hk
      · exact absurd hk hc1
      · exact absurd hk hc2
      · exact absurd hk hc3

/-- Witness for C5: the unrecognized action "Reset" is rejected without
mutation, and "OFF" behaves like "off". -/
theorem unknown_action_witness :
    demo_command (some "Reset") ScenarioChoice.DEFAULT envW stDbWal =
      { state := stDbWal
      , trace := [Event.printError ("Unknown action: " ++ "Reset"),
                  Event.printMuted "Use on, off, or status"]
      , exitCode := 1 } ∧
    (demo_command (some "OFF") ScenarioChoice.DEFAULT envW stDbWal).state =
      (demo_command (some "off") ScenarioChoice.DEFAULT envW stDbWal).state :=
  ⟨unknown_action_and_case_insensitive.1 "Reset" envW ScenarioChoice.DEFAULT stDbWal
      (by decide) (by decide) (by decide),
   (unknown_action_and_case_insensitive.2 "OFF" "off" envW ScenarioChoice.DEFAULT stDbWal
      (by decide)).1⟩

/-- Claim C3: when the sync stage fails (`sync_all_integrations` result
unsuccessful), `DefaultScenario.setup` still reports the failure only
as a warning, still performs the account fetch of the balance-history
stage and still executes the budget-seeding write, and the enclosing
`on` command completes with exit status 0. -/
theorem sync_failure_tolerated (env : Env) (s : St)
    (h : env.syncResult.success = false) :
    (demo_command (some "on") ScenarioChoice.DEFAULT env s).exitCode = 0 ∧
    Event.printWarning ("Note: " ++ env.syncResult.error) ∈
      (demo_command (some "on") ScenarioChoice.DEFAULT env s).trace ∧
    Event.getAccounts ∈ (demo_command (some "on") ScenarioChoice.DEFAULT env s).trace ∧
    Event.execWriteQuery env.genBudgetSql ∈
      (demo_command (some "on") ScenarioChoice.DEFAULT env s).trace := by
  have hcmd : demo_command (some "on") ScenarioChoice.DEFAULT env s =
      { state := (enable_demo Scenario.defaultScn env s).state
      , trace := (enable_demo Scenario.defaultScn env s).trace
      , exitCode := 0 } := rfl
  rw [hcmd]
  refine ⟨rfl, ?_, ?_, ?_⟩ <;>
    simp [enable_demo, enable_demoF, scenarioSetup, defaultSetup, h]

/-- Witness for C3: the concrete environment with a failing sync still
yields exit 0 and the warning for the failed stage. -/
theorem sync_failure_witness :
    (demo_command (some "on") ScenarioChoice.DEFAULT envW stDbWal).exitCode = 0 ∧
    Event.printWarning ("Note: " ++ envW.syncResult.error) ∈
      (demo_command (some "on") ScenarioChoice.DEFAULT envW stDbWal).trace :=
  ⟨(sync_failure_tolerated envW stDbWal rfl).1,
   (sync_failure_tolerated envW stDbWal rfl).2.1⟩

/-- Claim C9: whenever listing the integrations does not succeed with
an entry named "demo" (failed result, `None` data or no such entry),
`has_demo` stays false and `create_integration` is invoked with the
name "demo"; its result is ignored (the setup trace does not depend on
it), and the sync stage runs regardless. -/
theorem create_integration_when_no_demo (env : Env)
    (h : ¬ (env.integrationsResult.success = true ∧
        ∃ i ∈ env.integrationsResult.data.getD [], i.integrationName = some "demo")) :
    hasDemoIntegration env.integrationsResult = false ∧
    Event.createIntegration "demo" ∈ defaultSetup env ∧
    Event.syncAllIntegrations ∈ defaultSetup env ∧
    ∀ r : PyResult Unit, defaultSetup { env with createResult := r } = defaultSetup env := by
  have hd : hasDemoIntegration env.integrationsResult = false := by
    by_contra hne
    have ht : hasDemoIntegration env.integrationsResult = true := by
      cases hb : hasDemoIntegration env.integrationsResult
      · exact absurd hb hne
      · rfl
    unfold hasDemoIntegration at ht
    rw [Bool.and_eq_true] at ht
    refine h ⟨ht.1, ?_⟩
    rcases List.any_eq_true.mp ht.2 with ⟨i, hi, hp⟩
    exact ⟨i, hi, by simpa using hp⟩
  refine ⟨hd, ?_, ?_, fun r => rfl⟩ <;> simp [defaultSetup, hd]

/-- Witness for C9: the concrete environment listing no integrations
leads to the creation call and the sync call. -/
theorem create_integration_witness :
    Event.createIntegration "demo" ∈ defaultSetup envW ∧
    Event.syncAllIntegrations ∈ defaultSetup envW :=
  ⟨(create_integration_when_no_demo envW (by decide)).2.1,
   (create_integration_when_no_demo envW (by decide)).2.2.1⟩

/-! ## Account-ID Map lemmas (for the balance-history stage) -/

theorem any_eq_true_iff_mem_dictKeys (m : List (String × String)) (k : String) :
    (m.any (fun p => p.1 == k)) = true ↔ k ∈ dictKeys m := by
  simp [dictKeys, List.any_eq_true, List.mem_map]

theorem dictKeys_dictInsert (m : List (String × String)) (k0 v : String) :
    dictKeys (dictInsert m k0 v) =
      if k0 ∈ dictKeys m then dictKeys m else dictKeys m ++ [k0] := by
  unfold dictInsert
  by_cases h : (m.any (fun p => p.1 == k0)) = true
  · rw [if_pos h, if_pos ((any_eq_true_iff_mem_dictKeys m k0).mp h)]
    unfold dictKeys
    rw [List.map_map]
    apply List.map_congr_left
    intro p _
    by_cases hp : (p.1 == k0) = true
    · simp only [Function.comp_apply, if_pos hp]
      exact (eq_of_beq hp).symm
    · simp only [Function.comp_apply, if_neg hp]
  · rw [if_neg h, if_neg (fun hk => h ((any_eq_true_iff_mem_dictKeys m k0).mpr hk))]
    simp [dictKeys]

theorem accountIdStep_eq_of_none (m : List (String × String)) (a : Account)
    (hd : dictGet a.external_ids "demo" = none) : accountIdStep m a = m := by
  unfold accountIdStep
  rw [hd]

theorem accountIdStep_eq_of_some (m : List (String × String)) (a : Account)
    (demoId : String) (hd : dictGet a.external_ids "demo" = some demoId) :
    accountIdStep m a = if demoId ≠ "" then dictInsert m demoId a.id else m := by
  unfold accountIdStep
  rw [hd]

theorem mem_keys_accountIdStep (m : List (String × String)) (a : Account) (k : String) :
    k ∈ dictKeys (accountIdStep m a) ↔
      k ∈ dictKeys m ∨ (dictGet a.external_ids "demo" = some k ∧ k ≠ "") := by
  cases hd : dictGet a.external_ids "demo" with
  | none => simp [accountIdStep_eq_of_none m a hd]
  | some demoId =>
    rw [accountIdStep_eq_of_some m a demoId hd]
    by_cases he : demoId = ""
    · subst he
      rw [if_neg (fun h2 => h2 rfl)]
      constructor
      · exact Or.inl
      · rintro (hk | ⟨hk, hne⟩)
        · exact hk
        · exact absurd (Option.some.inj hk) (fun h2 => hne h2.symm)
    · rw [if_pos he, dictKeys_dictInsert]
      by_cases hm : demoId ∈ dictKeys m
      · rw [if_pos hm]
        constructor
        · exact Or.inl
        · rintro (hk | ⟨hk, hne⟩)
          · exact hk
          · rw [← Option.some.inj hk]; exact hm
      · rw [if_neg hm]
        rw [List.mem_append]
        constructor
        · rintro (hk | hk)
          · exact Or.inl hk
          · refine Or.inr ⟨?_, ?_⟩
            · rw [List.mem_singleton.mp hk]
            · rw [List.mem_singleton.mp hk]; exact he
        · rintro (hk | ⟨hk, hne⟩)
          · exact Or.inl hk
          · right
            rw [List.mem_singleton]
            exact (Option.some.inj hk).symm

theorem mem_keys_foldl_accountIdStep (accounts : List Account) :
    ∀ (m : List (String × String)) (k : String),
      k ∈ dictKeys (accounts.foldl accountIdStep m) ↔
        k ∈ dictKeys m ∨
          ∃ a ∈ accounts, dictGet a.external_ids "demo" = some k ∧ k ≠ "" := by
  induction accounts with
  | nil =>
    intro m k
    simp
  | cons a rest ih =>
    intro m k
    rw [List.foldl_cons, ih, mem_keys_accountIdStep]
    simp only [List.mem_cons]
    constructor
    · rintro ((hk | hk) | ⟨b, hb, hc⟩)
      · exact Or.inl hk
      · exact Or.inr ⟨a, Or.inl rfl, hk⟩
      · exact Or.inr ⟨b, Or.inr hb, hc⟩
    · rintro (hk | ⟨b, (hb | hb), hc⟩)
      · exact Or.inl (Or.inl hk)
      · subst hb; exact Or.inl (Or.inr hc)
      · exact Or.inr ⟨b, hb, hc⟩

theorem mem_dictInsert_cases (m : List (String × String)) (k0 v : String)
    (p : String × String) (hp : p ∈ dictInsert m k0 v) : p ∈ m ∨ p = (k0, v) := by
  unfold dictInsert at hp
  by_cases h : (m.any (fun q => q.1 == k0)) = true
  · rw [if_pos h] at hp
    rcases List.mem_map.mp hp with ⟨q, hq, he⟩
    by_cases hqk : (q.1 == k0) = true
    · rw [if_pos hqk] at he
      exact Or.inr he.symm
    · rw [if_neg hqk] at he
      exact Or.inl (he ▸ hq)
  · rw [if_neg h] at hp
    rcases List.mem_append.mp hp with h1 | h1
    · exact Or.inl h1
    · exact Or.inr (List.mem_singleton.mp h1)

theorem mem_accountIdStep_cases (m : List (String × String)) (a : Account)
    (p : String × String) (hp : p ∈ accountIdStep m a) :
    p ∈ m ∨ (dictGet a.external_ids "demo" = some p.1 ∧ p.1 ≠ "" ∧ p.2 = a.id) := by
  cases hd : dictGet a.external_ids "demo" with
  | none =>
    rw [accountIdStep_eq_of_none m a hd] at hp
    exact Or.inl hp
  | some demoId =>
    rw [accountIdStep_eq_of_some m a demoId hd] at hp
    by_cases he : demoId = ""
    · rw [if_neg (fun h2 => h2 he)] at hp
      exact Or.inl hp
    · rw [if_pos he] at hp
      rcases mem_dictInsert_cases m demoId a.id p hp with h1 | h1
      · exact Or.inl h1
      · subst h1
        exact Or.inr ⟨rfl, he, rfl⟩

theorem mem_foldl_accountIdStep_cases (accounts : List Account) :
    ∀ (m : List (String × String)) (p : String × String),
      p ∈ accounts.foldl accountIdStep m →
      p ∈ m ∨ ∃ a ∈ accounts,
        dictGet a.external_ids "demo" = some p.1 ∧ p.1 ≠ "" ∧ p.2 = a.id := by
  induction accounts with
  | nil =>
    intro m p hp
    rw [List.foldl_nil] at hp
    exact Or.inl hp
  | cons a rest ih =>
    intro m p hp
    rw [List.foldl_cons] at hp
    rcases ih (accountIdStep m a) p hp with h1 | h1
    · rcases mem_accountIdStep_cases m a p h1 with h2 | h2
      · exact Or.inl h2
      · exact Or.inr ⟨a, List.mem_cons_self a rest, h2⟩
    · rcases h1 with ⟨b, hb, hc⟩
      exact Or.inr ⟨b, List.mem_cons_of_mem a hb, hc⟩

set_option maxHeartbeats 800000 in
/-- The balance-history generation event occurs in a `setup` trace
exactly when the accounts result is truthy and the Account-ID Map is
non-empty, and then only with that map as its argument. -/
theorem genBalance_mem_defaultSetup (env : Env) (m2 : List (String × String)) :
    Event.genBalanceSqlEv m2 ∈ defaultSetup env ↔
      (env.accountsResult.success && pyTruthyList env.accountsResult.data) = true ∧
      (accountIdMap (env.accountsResult.data.getD [])).isEmpty = false ∧
      m2 = accountIdMap (env.accountsResult.data.getD []) := by
  simp only [defaultSetup]
  split_ifs <;> simp_all

/-- Claim C7: in `DefaultScenario.setup` the Account-ID Map is built
from exactly the fetched accounts carrying a truthy "demo"-provider
external id (keys are exactly those demo ids, and every entry maps a
demo id to the internal id of an account carrying it); the only
balance-history SQL ever generated is parameterized by that map; it is
generated (and then executed) if and only if the accounts result is
truthy and the map is non-empty; the stage is skipped entirely when no
account carries a demo external id. -/
theorem balance_stage_account_map (env : Env) :
    (∀ k, k ∈ dictKeys (accountIdMap (env.accountsResult.data.getD [])) ↔
      ∃ a ∈ env.accountsResult.data.getD [],
        dictGet a.external_ids "demo" = some k ∧ k ≠ "") ∧
    (∀ p ∈ accountIdMap (env.accountsResult.data.getD []),
      ∃ a ∈ env.accountsResult.data.getD [],
        dictGet a.external_ids "demo" = some p.1 ∧ p.1 ≠ "" ∧ p.2 = a.id) ∧
    (∀ m2, Event.genBalanceSqlEv m2 ∈ defaultSetup env →
      m2 = accountIdMap (env.accountsResult.data.getD [])) ∧
    (Event.genBalanceSqlEv (accountIdMap (env.accountsResult.data.getD [])) ∈
        defaultSetup env ↔
      (env.accountsResult.success && pyTruthyList env.accountsResult.data) = true ∧
        accountIdMap (env.accountsResult.data.getD []) ≠ []) ∧
    (Event.genBalanceSqlEv (accountIdMap (env.accountsResult.data.getD [])) ∈
        defaultSetup env →
      Event.execWriteQuery
          (env.genBalanceHistorySql (accountIdMap (env.accountsResult.data.getD []))) ∈
        defaultSetup env) := by
  have hkeys : ∀ k, k ∈ dictKeys (accountIdMap (env.accountsResult.data.getD [])) ↔
      ∃ a ∈ env.accountsResult.data.getD [],
        dictGet a.external_ids "demo" = some k ∧ k ≠ "" := by
    intro k
    rw [accountIdMap, mem_keys_foldl_accountIdStep]
    simp [dictKeys]
  have hpairs : ∀ p ∈ accountIdMap (env.accountsResult.data.getD []),
      ∃ a ∈ env.accountsResult.data.getD [],
        dictGet a.external_ids "demo" = some p.1 ∧ p.1 ≠ "" ∧ p.2 = a.id := by
    intro p hp
    rcases mem_foldl_accountIdStep_cases (env.accountsResult.data.getD []) [] p hp
      with h1 | h1
    · exact absurd h1 (List.not_mem_nil p)
    · exact h1
  have huniq : ∀ m2, Event.genBalanceSqlEv m2 ∈ defaultSetup env →
      m2 = accountIdMap (env.accountsResult.data.getD []) := by
    intro m2 hm
    exact ((genBalance_mem_defaultSetup env m2).mp hm).2.2
  have hiff : Event.genBalanceSqlEv (accountIdMap (env.accountsResult.data.getD [])) ∈
      defaultSetup env ↔
      (env.accountsResult.success && pyTruthyList env.accountsResult.data) = true ∧
        accountIdMap (env.accountsResult.data.getD []) ≠ [] := by
    constructor
    · intro hm
      obtain ⟨h1, h2, _⟩ := (genBalance_mem_defaultSetup env _).mp hm
      refine ⟨h1, fun hM => ?_⟩
      rw [hM] at h2
      exact absurd h2 (by simp)
    · rintro ⟨hc, hne⟩
      have hie : (accountIdMap (env.accountsResult.data.getD [])).isEmpty = false := by
        cases hM : accountIdMap (env.accountsResult.data.getD []) with
        | nil => exact absurd hM hne
        | cons q t => rfl
      exact (genBalance_mem_defaultSetup env _).mpr ⟨hc, hie, rfl⟩
  have hexec : Event.genBalanceSqlEv (accountIdMap (env.accountsResult.data.getD [])) ∈
      defaultSetup env →
      Event.execWriteQuery
          (env.genBalanceHistorySql (accountIdMap (env.accountsResult.data.getD []))) ∈
        defaultSetup env := by
    intro hm
    obtain ⟨hc, hie, _⟩ := (genBalance_mem_defaultSetup env _).mp hm
    simp [defaultSetup, hc, hie]
  exact ⟨hkeys, hpairs, huniq, hiff, hexec⟩

/-- Witness for C7: in the concrete environment the one fetched account
has demo external id "d1", the map is `[("d1", "acc1")]`, and both the
generation event and the execution of the generated SQL occur. -/
theorem balance_stage_witness :
    Event.genBalanceSqlEv [("d1", "acc1")] ∈ defaultSetup envW ∧
    Event.execWriteQuery (envW.genBalanceHistorySql [("d1", "acc1")]) ∈
      defaultSetup envW :=
  ⟨(balance_stage_account_map envW).2.2.2.1.mpr ⟨rfl, by decide⟩,
   (balance_stage_account_map envW).2.2.2.2
     ((balance_stage_account_map envW).2.2.2.1.mpr ⟨rfl, by decide⟩)⟩
